import Mathlib

/-!
Verification development for the `aiomealie` client library.

The definitions below are a shallow embedding of the library's code:
`exceptions.py` becomes the `MealieError` inductive, the response
classification of `MealieClient._request` (`mealie.py`) becomes
`classifyResponse` / `handleTransport`, the client dataclass becomes the
`MealieClient` structure, and the mashumaro models of `models.py` become
structures with explicit wire-to-model decoding functions.
-/

namespace Aiomealie

/-- Does the character list `haystack` start with `needle`?
Helper for the Python `in` substring test. -/
def startsWithChars : List Char → List Char → Bool
  | _, [] => true
  | [], _ :: _ => false
  | a :: as, b :: bs => a == b && startsWithChars as bs

/-- Does `haystack` contain `needle` as a contiguous run?
Helper for the Python `in` substring test. -/
def containsChars (needle : List Char) : List Char → Bool
  | [] => startsWithChars [] needle
  | h :: t => startsWithChars (h :: t) needle || containsChars needle t

/-- Python's `needle in haystack` on strings. -/
def strContains (haystack needle : String) : Bool :=
  containsChars needle.toList haystack.toList

/-- The error taxonomy of `exceptions.py`: `MealieError` and its five
subclasses, flattened into one closed inductive.  The `generic` case is the
base class raised directly by `_request` with a message and a context
dictionary. -/
inductive MealieError
  | connection (msg : String)
  | authentication (msg : String)
  | validation (msg : String)
  | notFound (msg : String)
  | badRequest (msg : String)
  | generic (msg : String) (context : List (String × String))
deriving DecidableEq, Repr

/-- An HTTP response as seen by `MealieClient._request`: status code, the
`Content-Type` header value (empty string when absent, mirroring
`response.headers.get("Content-Type", "")`), and the body text. -/
structure HttpResponse where
  status : Nat
  contentType : String
  body : String
deriving DecidableEq, Repr

/-- Outcome of the low-level `session.request` call inside
`MealieClient._request`: deadline expiry (`asyncio.TimeoutError`), a
transport failure (`aiohttp.ClientConnectionError`), or a response. -/
inductive TransportResult
  | timeout
  | connectionFailure
  | response (r : HttpResponse)
deriving DecidableEq, Repr

/-- The status/content-type classification of `MealieClient._request`
(mealie.py lines 97-128): 400, 401, 422 and 404 are classified in that
order before the body is read; then a content type without
`application/json` raises the base `MealieError` carrying the observed
content type; otherwise the body text is returned. -/
def classifyResponse (r : HttpResponse) : Except MealieError String :=
  if r.status == 400 then
    .error (.badRequest "Bad request to Mealie")
  else if r.status == 401 then
    .error (.authentication "Unauthorized access to Mealie")
  else if r.status == 422 then
    .error (.validation "Mealie validation error")
  else if r.status == 404 then
    .error (.notFound "Object not found in Mealie")
  else if strContains r.contentType "application/json" then
    .ok r.body
  else
    .error (.generic "Unexpected response from Mealie"
      [("Content-Type", r.contentType)])

/-- Embeds `MealieClient._request` (mealie.py lines 85-128): a timeout or client
connection error becomes `MealieConnectionError`; a response is classified
by `classifyResponse`. -/
def handleTransport : TransportResult → Except MealieError String
  | .timeout => .error (.connection "Timeout occurred while connecting to Mealie")
  | .connectionFailure =>
      .error (.connection "Client connection error while connecting to Mealie")
  | .response r => classifyResponse r

/-- An aiohttp client session, reduced to the one observable the library
touches: whether it has been closed. -/
structure Session where
  closed : Bool
deriving DecidableEq, Repr

/-- The `MealieClient` dataclass (mealie.py lines 51-61) with its field
defaults.  `close_session` embeds `_close_session` and `version` embeds
`_version`. -/
structure MealieClient where
  api_host : String
  token : Option String := none
  session : Option Session := none
  request_timeout : Nat := 10
  close_session : Bool := false
  household_support : Option Bool := none
  version : Option String := none
deriving DecidableEq, Repr

/-- The session-creation step of `_request` (mealie.py lines 81-83): if no
session exists, create one and mark it owned by the client. -/
def MealieClient.ensureSession (c : MealieClient) : MealieClient :=
  match c.session with
  | none => { c with session := some { closed := false }, close_session := true }
  | some _ => c

/-- Embeds `MealieClient.close` (mealie.py lines 346-349): close the session only
when one exists and the client created it. -/
def MealieClient.close (c : MealieClient) : MealieClient :=
  match c.session with
  | some _ => if c.close_session then { c with session := some { closed := true } } else c
  | none => c

/-- Embeds `MealieClient.__aexit__` (mealie.py lines 360-367): delegates to
`close`. -/
def MealieClient.aexit (c : MealieClient) : MealieClient :=
  c.close

/-- Embeds `MealieClient._versioned_path` (mealie.py lines 179-183): the
`api/households/` path root when `household_support` is truthy, otherwise
the `api/groups/` path root (Python truthiness: `None` and `False` both
select the group form). -/
def MealieClient.versioned_path (c : MealieClient) (path_end : String) : String :=
  match c.household_support with
  | some true => "api/households/" ++ path_end
  | _ => "api/groups/" ++ path_end

/-- Embeds `MealieClient.define_household_support` (mealie.py lines 161-169):
probe `api/households/mealplans/today`; any `MealieError` (every member of
the taxonomy derives from it) sets the flag to `False`, success sets it to
`True`; the flag is returned.  The probe's transport outcome is the
argument. -/
def MealieClient.define_household_support (c : MealieClient)
    (probe : TransportResult) : MealieClient × Bool :=
  match handleTransport probe with
  | .error _ => ({ c with household_support := some false }, false)
  | .ok _ => ({ c with household_support := some true }, true)

/-- The URI probed by `define_household_support` (mealie.py line 164). -/
def householdProbeUri : String := "api/households/mealplans/today"

/-- Path used by `get_mealplan_today` (mealie.py line 239). -/
def MealieClient.mealplan_today_path (c : MealieClient) : String :=
  c.versioned_path "mealplans/today"

/-- Path used by `get_mealplans` and `set_mealplan` (mealie.py lines 254, 343). -/
def MealieClient.mealplans_path (c : MealieClient) : String :=
  c.versioned_path "mealplans"

/-- Path used by `get_shopping_lists` (mealie.py line 261). -/
def MealieClient.shopping_lists_path (c : MealieClient) : String :=
  c.versioned_path "shopping/lists"

/-- Path used by `get_shopping_items` and `add_shopping_item`
(mealie.py lines 274, 284). -/
def MealieClient.shopping_items_path (c : MealieClient) : String :=
  c.versioned_path "shopping/items"

/-- Path used by `update_shopping_item` and `delete_shopping_item`
(mealie.py lines 293, 301). -/
def MealieClient.shopping_item_path (c : MealieClient) (item_id : String) : String :=
  c.versioned_path "shopping/items" ++ "/" ++ item_id

/-- Path used by `get_statistics` (mealie.py line 307). -/
def MealieClient.statistics_path (c : MealieClient) : String :=
  c.versioned_path "statistics"

/-- Path used by `random_mealplan` (mealie.py line 315). -/
def MealieClient.random_mealplan_path (c : MealieClient) : String :=
  c.versioned_path "mealplans/random"

/-- Python `str.strip()`: drop whitespace from both ends (over the
character list, so it computes by kernel reduction). -/
def pyStrip (s : String) : String :=
  String.mk
    (((s.toList.dropWhile Char.isWhitespace).reverse.dropWhile
        Char.isWhitespace).reverse)

/-- Python string truthiness test `not value`: the string is empty. -/
def pyStrIsEmpty (s : String) : Bool :=
  s.toList.isEmpty

/-- Embeds `OptionalStringSerializationStrategy.deserialize` (models.py lines
22-27): a missing/null or empty value becomes `none` (Python `if not
value`), otherwise the value is stripped of surrounding whitespace, and a
value that stripped to nothing also becomes `none`. -/
def optionalStringDeserialize : Option String → Option String
  | none => none
  | some value =>
    if pyStrIsEmpty value then none
    else
      let val := pyStrip value
      if pyStrIsEmpty val then none else some val

/-- Embeds `OptionalStringSerializationStrategy.serialize` (models.py lines
18-20): the identity. -/
def optionalStringSerialize (value : Option String) : Option String :=
  value

/-- The `MealplanEntryType` enum (models.py lines 179-185). -/
inductive MealplanEntryType
  | dinner
  | lunch
  | breakfast
  | side
deriving DecidableEq, Repr

/-- Wire value of a `MealplanEntryType` member. -/
def MealplanEntryType.value : MealplanEntryType → String
  | .dinner => "dinner"
  | .lunch => "lunch"
  | .breakfast => "breakfast"
  | .side => "side"

/-- The `Instruction` model (models.py lines 116-129); `title` is the
decoded optional-string field. -/
structure Instruction where
  instruction_id : String
  title : Option String
  text : String
  ingredient_references : List String
deriving DecidableEq, Repr

/-- Wire form of an `Instruction`: the aliased JSON fields before field
decoding; `title` holds the raw string-or-null. -/
structure InstructionWire where
  id : String
  title : Option String
  text : String
  ingredientReferences : List String
deriving DecidableEq, Repr

/-- Decoding an `Instruction` from its wire fields: `title` goes through
`OptionalStringSerializationStrategy`, the rest are copied under their
internal names. -/
def Instruction.fromWire (w : InstructionWire) : Instruction :=
  { instruction_id := w.id
    title := optionalStringDeserialize w.title
    text := w.text
    ingredient_references := w.ingredientReferences }

/-- The `BaseRecipe` model (models.py lines 132-155); `household_id` is the
decoded optional-string field. -/
structure BaseRecipe where
  recipe_id : String
  user_id : String
  group_id : String
  name : String
  slug : String
  description : String
  image : Option String := none
  recipe_yield : Option String := none
  original_url : Option String := none
  household_id : Option String := none
deriving DecidableEq, Repr

/-- Wire form of a `BaseRecipe`: the aliased JSON fields before field
decoding; `householdId` holds the raw string-or-null. -/
structure BaseRecipeWire where
  id : String
  userId : String
  groupId : String
  name : String
  slug : String
  description : String
  image : Option String := none
  recipeYield : Option String := none
  orgURL : Option String := none
  householdId : Option String := none
deriving DecidableEq, Repr

/-- Decoding a `BaseRecipe` from its wire fields: `householdId` goes
through `OptionalStringSerializationStrategy`, the rest are copied under
their internal names. -/
def BaseRecipe.fromWire (w : BaseRecipeWire) : BaseRecipe :=
  { recipe_id := w.id
    user_id := w.userId
    group_id := w.groupId
    name := w.name
    slug := w.slug
    description := w.description
    image := w.image
    recipe_yield := w.recipeYield
    original_url := w.orgURL
    household_id := optionalStringDeserialize w.householdId }

/-- The `Mealplan` model (models.py lines 188-214); `title`, `description`
and `household_id` are the decoded optional-string fields.  Calendar dates
are carried as their ISO strings. -/
structure Mealplan where
  mealplan_id : Int
  user_id : String
  group_id : String
  entry_type : MealplanEntryType
  mealplan_date : String
  title : Option String
  description : Option String
  recipe : Option BaseRecipe
  household_id : Option String := none
deriving DecidableEq, Repr

/-- Wire form of a `Mealplan`: the aliased JSON fields before field
decoding; `title`, `text` and `householdId` hold the raw
string-or-null values. -/
structure MealplanWire where
  id : Int
  userId : String
  groupId : String
  entryType : MealplanEntryType
  date : String
  title : Option String
  text : Option String
  recipe : Option BaseRecipeWire
  householdId : Option String := none
deriving DecidableEq, Repr

/-- Decoding a `Mealplan` from its wire fields: `title`, `text` and
`householdId` go through `OptionalStringSerializationStrategy` (the second
lands in `description`), the rest are copied under their internal names. -/
def Mealplan.fromWire (w : MealplanWire) : Mealplan :=
  { mealplan_id := w.id
    user_id := w.userId
    group_id := w.groupId
    entry_type := w.entryType
    mealplan_date := w.date
    title := optionalStringDeserialize w.title
    description := optionalStringDeserialize w.text
    recipe := w.recipe.map BaseRecipe.fromWire
    household_id := optionalStringDeserialize w.householdId }

/-- A flat JSON scalar, enough for the request payloads this client
sends.  Objects are association lists `List (String × Json)`. -/
inductive Json
  | str (s : String)
  | bool (b : Bool)
  | int (n : Int)
  | num (q : Rat)
  | null
deriving DecidableEq, Repr

/-- The `MutateShoppingItem` model (models.py lines 259-284): every field
optional and defaulted, in declaration order. -/
structure MutateShoppingItem where
  item_id : Option String := none
  list_id : Option String := none
  note : Option String := none
  display : Option String := none
  checked : Option Bool := none
  position : Option Int := none
  is_food : Option Bool := none
  disable_amount : Option Bool := none
  quantity : Option Rat := none
  label_id : Option String := none
  food_id : Option String := none
  unit_id : Option String := none
deriving DecidableEq, Repr

/-- One entry of an omit-none serialization: a set field contributes its
aliased key, an unset field contributes nothing. -/
def omitNoneField (key : String) : Option Json → List (String × Json)
  | none => []
  | some v => [(key, v)]

/-- Embeds `MutateShoppingItem.to_dict(omit_none=True)` under
`serialize_by_alias`: the aliased keys of the set fields, in declaration
order, with unset fields omitted (mashumaro's
`TO_DICT_ADD_OMIT_NONE_FLAG`). -/
def MutateShoppingItem.to_dict_omit_none (m : MutateShoppingItem) :
    List (String × Json) :=
  omitNoneField "id" (m.item_id.map Json.str) ++
  omitNoneField "shoppingListId" (m.list_id.map Json.str) ++
  omitNoneField "note" (m.note.map Json.str) ++
  omitNoneField "display" (m.display.map Json.str) ++
  omitNoneField "checked" (m.checked.map Json.bool) ++
  omitNoneField "position" (m.position.map Json.int) ++
  omitNoneField "isFood" (m.is_food.map Json.bool) ++
  omitNoneField "disableAmount" (m.disable_amount.map Json.bool) ++
  omitNoneField "quantity" (m.quantity.map Json.num) ++
  omitNoneField "labelId" (m.label_id.map Json.str) ++
  omitNoneField "foodId" (m.food_id.map Json.str) ++
  omitNoneField "unitId" (m.unit_id.map Json.str)

/-- Split a character list on `.` separators; an accumulator-style
recursion so it computes by kernel reduction. -/
def splitOnDotAux (acc : List Char) : List Char → List (List Char)
  | [] => [acc.reverse]
  | c :: rest =>
      if c == '.' then acc.reverse :: splitOnDotAux [] rest
      else splitOnDotAux (c :: acc) rest

/-- Parse one nonempty all-digit component to its decimal value. -/
def digitComponent : List Char → Option Nat
  | [] => none
  | cs =>
      if cs.all Char.isDigit then
        some (cs.foldl (fun n c => 10 * n + (c.toNat - '0'.toNat)) 0)
      else none

/-- Modelled from the spec: the external `awesomeversion` dependency as
this client uses it — a version string made of dot-separated decimal
components parses to those components ("standard dotted-version
comparison"); any other string, and the absent value (`AwesomeVersion(None)`),
is invalid. -/
def parseDottedVersion (s : String) : Option (List Nat) :=
  let parts := (splitOnDotAux [] s.toList).map digitComponent
  if parts.all Option.isSome then some (parts.map (fun o => o.getD 0)) else none

/-- Modelled from the spec: `AwesomeVersion(value)` on the cached optional
version string; a missing value is invalid. -/
def awesomeVersion : Option String → Option (List Nat)
  | none => none
  | some s => parseDottedVersion s

/-- Modelled from the spec: strict dotted-version comparison, componentwise
with a shorter version preceding its extensions. -/
def versionLt : List Nat → List Nat → Bool
  | [], [] => false
  | [], _ :: _ => true
  | _ :: _, [] => false
  | a :: as, b :: bs => a < b || (a == b && versionLt as bs)

/-- The endpoint choice of `MealieClient.import_recipe` (mealie.py lines
229-233): the legacy `api/recipes/create-url` exactly when the cached
version is valid and strictly below `2.0.0`, otherwise
`api/recipes/create/url`. -/
def MealieClient.import_recipe_uri (c : MealieClient) : String :=
  match awesomeVersion c.version with
  | some ver =>
      if versionLt ver [2, 0, 0] then "api/recipes/create-url"
      else "api/recipes/create/url"
  | none => "api/recipes/create/url"

/-- The observable request trace of `import_recipe`: the POST target and
payload, and the follow-up GET target. -/
structure ImportRecipeTrace where
  post_uri : String
  post_data : List (String × Json)
  get_uri : String
deriving DecidableEq, Repr

/-- Embeds `MealieClient.import_recipe` (mealie.py lines 226-235) as a request
trace: POST `{"url": url, "include_tags": include_tags}` to the
version-appropriate endpoint, then GET the recipe whose slug was decoded
(`json.loads`) from the POST response; the client state is not touched. -/
def MealieClient.import_recipe_trace (c : MealieClient) (url : String)
    (include_tags : Bool) (slug : String) : ImportRecipeTrace :=
  { post_uri := c.import_recipe_uri
    post_data := [("url", Json.str url), ("include_tags", Json.bool include_tags)]
    get_uri := "api/recipes/" ++ slug }

/-! ## Helper lemmas -/

/-- An invalid or absent cached version selects the newer endpoint. -/
lemma import_recipe_uri_of_none (c : MealieClient)
    (h : awesomeVersion c.version = none) :
    c.import_recipe_uri = "api/recipes/create/url" := by
  unfold MealieClient.import_recipe_uri
  rw [h]

/-- A valid cached version below `2.0.0` selects the legacy endpoint. -/
lemma import_recipe_uri_of_lt (c : MealieClient) (ver : List Nat)
    (h : awesomeVersion c.version = some ver)
    (hlt : versionLt ver [2, 0, 0] = true) :
    c.import_recipe_uri = "api/recipes/create-url" := by
  unfold MealieClient.import_recipe_uri
  rw [h]
  simp [hlt]

/-- A valid cached version not below `2.0.0` selects the newer endpoint. -/
lemma import_recipe_uri_of_not_lt (c : MealieClient) (ver : List Nat)
    (h : awesomeVersion c.version = some ver)
    (hlt : versionLt ver [2, 0, 0] = false) :
    c.import_recipe_uri = "api/recipes/create/url" := by
  unfold MealieClient.import_recipe_uri
  rw [h]
  simp [hlt]

/-! ## Theorems -/

/-- C1: in the request pipeline, status 400 raises `MealieBadRequestError`,
401 `MealieAuthenticationError`, 404 `MealieNotFoundError` and 422
`MealieValidationError`, each independently of the body and content type;
a 200 response whose `Content-Type` does not contain `application/json`
raises the base `MealieError`; a timeout (against the configured deadline,
default 10) or a transport failure raises `MealieConnectionError`. -/
theorem claim_C1_pipeline_classification :
    (∀ ct body, classifyResponse ⟨400, ct, body⟩ =
      .error (.badRequest "Bad request to Mealie")) ∧
    (∀ ct body, classifyResponse ⟨401, ct, body⟩ =
      .error (.authentication "Unauthorized access to Mealie")) ∧
    (∀ ct body, classifyResponse ⟨404, ct, body⟩ =
      .error (.notFound "Object not found in Mealie")) ∧
    (∀ ct body, classifyResponse ⟨422, ct, body⟩ =
      .error (.validation "Mealie validation error")) ∧
    (∀ ct body, strContains ct "application/json" = false →
      classifyResponse ⟨200, ct, body⟩ =
        .error (.generic "Unexpected response from Mealie" [("Content-Type", ct)])) ∧
    handleTransport .timeout =
      .error (.connection "Timeout occurred while connecting to Mealie") ∧
    handleTransport .connectionFailure =
      .error (.connection "Client connection error while connecting to Mealie") ∧
    ({ api_host := "host" } : MealieClient).request_timeout = 10 := by
  refine ⟨fun ct body => rfl, fun ct body => rfl, fun ct body => rfl,
    fun ct body => rfl, fun ct body h => ?_, rfl, rfl, rfl⟩
  simp [classifyResponse, h]

/-- Witness for C1 at the concrete 200 `text/plain` response of the
test-suite scenario. -/
theorem claim_C1_pipeline_classification_witness :
    strContains "text/plain" "application/json" = false ∧
    classifyResponse ⟨200, "text/plain", "Yes"⟩ =
      .error (.generic "Unexpected response from Mealie"
        [("Content-Type", "text/plain")]) :=
  ⟨by decide,
   claim_C1_pipeline_classification.2.2.2.2.1 "text/plain" "Yes" (by decide)⟩

/-- C2 counterexample: a 500 response whose content type is
`application/json` is returned as a success body — the pipeline has no
status check beyond 400/401/422/404, so it does not raise the generic
error there. -/
theorem claim_C2_counterexample :
    classifyResponse ⟨500, "application/json", "internal error"⟩ =
      .ok "internal error" :=
  rfl

/-- C2 (amended): a response whose status is none of 400, 401, 422, 404
raises the base `MealieError` exactly when its `Content-Type` lacks
`application/json`; with a JSON content type its body is returned as a
success, whatever the status. -/
theorem claim_C2_other_status (r : HttpResponse)
    (h400 : r.status ≠ 400) (h401 : r.status ≠ 401)
    (h422 : r.status ≠ 422) (h404 : r.status ≠ 404) :
    (strContains r.contentType "application/json" = false →
      classifyResponse r =
        .error (.generic "Unexpected response from Mealie"
          [("Content-Type", r.contentType)])) ∧
    (strContains r.contentType "application/json" = true →
      classifyResponse r = .ok r.body) := by
  constructor <;> intro h <;> simp [classifyResponse, h400, h401, h422, h404, h]

/-- Witness for C2 at a concrete 500 `text/html` response. -/
theorem claim_C2_other_status_witness :
    classifyResponse ⟨500, "text/html", "oops"⟩ =
      .error (.generic "Unexpected response from Mealie"
        [("Content-Type", "text/html")]) :=
  (claim_C2_other_status ⟨500, "text/html", "oops"⟩ (by decide) (by decide)
    (by decide) (by decide)).1 (by decide)

/-- C3: `define_household_support` turns any `MealieError` from the probe
into a stored `household_support = false` (returning `false`, propagating
nothing), stores `true` on a successful JSON response, and every scoped
path uses the `api/households/` path root when the stored flag is `true`
and the `api/groups/` path root when it is `false`. -/
theorem claim_C3_household_probe :
    (∀ (c : MealieClient) (probe : TransportResult) (e : MealieError),
       handleTransport probe = .error e →
       c.define_household_support probe =
         ({ c with household_support := some false }, false)) ∧
    (∀ (c : MealieClient) (probe : TransportResult) (s : String),
       handleTransport probe = .ok s →
       c.define_household_support probe =
         ({ c with household_support := some true }, true)) ∧
    (∀ (c : MealieClient) (p : String), c.household_support = some true →
       c.versioned_path p = "api/households/" ++ p) ∧
    (∀ (c : MealieClient) (p : String), c.household_support = some false →
       c.versioned_path p = "api/groups/" ++ p) ∧
    (∀ c : MealieClient,
       c.mealplan_today_path = c.versioned_path "mealplans/today" ∧
       c.mealplans_path = c.versioned_path "mealplans" ∧
       c.shopping_lists_path = c.versioned_path "shopping/lists" ∧
       c.shopping_items_path = c.versioned_path "shopping/items" ∧
       c.statistics_path = c.versioned_path "statistics" ∧
       c.random_mealplan_path = c.versioned_path "mealplans/random") := by
  refine ⟨fun c probe e h => ?_, fun c probe s h => ?_,
    fun c p h => ?_, fun c p h => ?_,
    fun c => ⟨rfl, rfl, rfl, rfl, rfl, rfl⟩⟩
  · simp [MealieClient.define_household_support, h]
  · simp [MealieClient.define_household_support, h]
  · simp [MealieClient.versioned_path, h]
  · simp [MealieClient.versioned_path, h]

/-- Witness for C3: a 404 probe answer stores `false` and a subsequent
scoped path uses the `api/groups/` form; a JSON probe answer stores
`true`. -/
theorem claim_C3_household_probe_witness :
    ({ api_host := "host" } : MealieClient).define_household_support
        (.response ⟨404, "application/json", ""⟩) =
      ({ api_host := "host", household_support := some false }, false) ∧
    ({ api_host := "host", household_support := some false } :
        MealieClient).versioned_path "mealplans/today" =
      "api/groups/mealplans/today" ∧
    ({ api_host := "host" } : MealieClient).define_household_support
        (.response ⟨200, "application/json", "[]"⟩) =
      ({ api_host := "host", household_support := some true }, true) :=
  ⟨claim_C3_household_probe.1 _ _ (.notFound "Object not found in Mealie") rfl,
   claim_C3_household_probe.2.2.2.1 _ "mealplans/today" rfl,
   claim_C3_household_probe.2.1 _ _ "[]" rfl⟩

/-- C4: every field decoded through
`OptionalStringSerializationStrategy` — the instruction title, the
mealplan title and description, and the recipe and mealplan household
ids — maps the wire values `""`, a whitespace-only string, and null/absent
all to `none`, and maps `" x "` to `"x"`. -/
theorem claim_C4_blank_normalization :
    (∀ w : MealplanWire,
       (Mealplan.fromWire { w with title := some "" }).title = none ∧
       (Mealplan.fromWire { w with title := some "   " }).title = none ∧
       (Mealplan.fromWire { w with title := none }).title = none ∧
       (Mealplan.fromWire { w with title := some " x " }).title = some "x" ∧
       (Mealplan.fromWire { w with text := some "" }).description = none ∧
       (Mealplan.fromWire { w with text := some "   " }).description = none ∧
       (Mealplan.fromWire { w with text := none }).description = none ∧
       (Mealplan.fromWire { w with text := some " x " }).description = some "x" ∧
       (Mealplan.fromWire { w with householdId := some "" }).household_id = none ∧
       (Mealplan.fromWire { w with householdId := some "   " }).household_id = none ∧
       (Mealplan.fromWire { w with householdId := none }).household_id = none ∧
       (Mealplan.fromWire { w with householdId := some " x " }).household_id = some "x") ∧
    (∀ w : InstructionWire,
       (Instruction.fromWire { w with title := some "" }).title = none ∧
       (Instruction.fromWire { w with title := some "   " }).title = none ∧
       (Instruction.fromWire { w with title := none }).title = none ∧
       (Instruction.fromWire { w with title := some " x " }).title = some "x") ∧
    (∀ w : BaseRecipeWire,
       (BaseRecipe.fromWire { w with householdId := some "" }).household_id = none ∧
       (BaseRecipe.fromWire { w with householdId := some "   " }).household_id = none ∧
       (BaseRecipe.fromWire { w with householdId := none }).household_id = none ∧
       (BaseRecipe.fromWire { w with householdId := some " x " }).household_id = some "x") :=
  ⟨fun _ => ⟨rfl, rfl, rfl, rfl, rfl, rfl, rfl, rfl, rfl, rfl, rfl, rfl⟩,
   fun _ => ⟨rfl, rfl, rfl, rfl⟩,
   fun _ => ⟨rfl, rfl, rfl, rfl⟩⟩

/-- C5: a client constructed without a session gets one on the first
request, owns it, and `close` closes it; a client constructed with a
caller-supplied session keeps it untouched through the pipeline, `close`
and `__aexit__`. -/
theorem claim_C5_session_ownership :
    (∀ c : MealieClient, c.session = none →
       c.ensureSession.session = some { closed := false } ∧
       c.ensureSession.close_session = true ∧
       c.ensureSession.close.session = some { closed := true }) ∧
    (∀ (c : MealieClient) (s : Session),
       c.session = some s → c.close_session = false →
       c.ensureSession = c ∧ c.close = c ∧ c.aexit = c ∧
       c.close.session = some s) := by
  constructor
  · intro c h
    refine ⟨?_, ?_, ?_⟩ <;>
      simp [MealieClient.ensureSession, MealieClient.close, h]
  · intro c s hs ho
    have he : c.ensureSession = c := by simp [MealieClient.ensureSession, hs]
    have hc : c.close = c := by simp [MealieClient.close, hs, ho]
    exact ⟨he, hc, hc, by rw [hc, hs]⟩

/-- Witness for C5: a default-constructed client's lazily created session
ends closed after `close`; a caller-supplied open session survives
`close` untouched. -/
theorem claim_C5_session_ownership_witness :
    ({ api_host := "h" } : MealieClient).ensureSession.close.session =
      some { closed := true } ∧
    ({ api_host := "h", session := some { closed := false } } :
        MealieClient).close =
      { api_host := "h", session := some { closed := false } } :=
  ⟨(claim_C5_session_ownership.1 _ rfl).2.2,
   (claim_C5_session_ownership.2 _ { closed := false } rfl rfl).2.1⟩

/-- C6: `import_recipe` POSTs `{"url": url, "include_tags":
include_tags}` to the legacy `api/recipes/create-url` exactly when the
cached version string parses as a valid dotted version strictly below
2.0.0, otherwise (including invalid or absent versions) to
`api/recipes/create/url`; it then GETs the recipe at the slug decoded
from the POST response. -/
theorem claim_C6_import_recipe (c : MealieClient) (url : String)
    (include_tags : Bool) (slug : String) :
    ((c.import_recipe_trace url include_tags slug).post_uri =
        "api/recipes/create-url" ↔
      ∃ ver, awesomeVersion c.version = some ver ∧
        versionLt ver [2, 0, 0] = true) ∧
    ((c.import_recipe_trace url include_tags slug).post_uri =
        "api/recipes/create-url" ∨
     (c.import_recipe_trace url include_tags slug).post_uri =
        "api/recipes/create/url") ∧
    (c.import_recipe_trace url include_tags slug).post_data =
      [("url", Json.str url), ("include_tags", Json.bool include_tags)] ∧
    (c.import_recipe_trace url include_tags slug).get_uri =
      "api/recipes/" ++ slug := by
  refine ⟨?_, ?_, rfl, rfl⟩
  · show c.import_recipe_uri = "api/recipes/create-url" ↔
      ∃ ver, awesomeVersion c.version = some ver ∧ versionLt ver [2, 0, 0] = true
    rcases hv : awesomeVersion c.version with _ | ver
    · rw [import_recipe_uri_of_none c hv]
      constructor
      · intro h
        exact absurd h (by decide)
      · rintro ⟨ver, hv', -⟩
        cases hv'
    · by_cases hlt : versionLt ver [2, 0, 0] = true
      · rw [import_recipe_uri_of_lt c ver hv hlt]
        exact iff_of_true rfl ⟨ver, rfl, hlt⟩
      · rw [import_recipe_uri_of_not_lt c ver hv (by simpa using hlt)]
        constructor
        · intro h
          exact absurd h (by decide)
        · rintro ⟨ver', hv', hlt'⟩
          injection hv' with h
          subst h
          exact absurd hlt' hlt
  · show c.import_recipe_uri = "api/recipes/create-url" ∨
      c.import_recipe_uri = "api/recipes/create/url"
    rcases hv : awesomeVersion c.version with _ | ver
    · exact Or.inr (import_recipe_uri_of_none c hv)
    · by_cases hlt : versionLt ver [2, 0, 0] = true
      · exact Or.inl (import_recipe_uri_of_lt c ver hv hlt)
      · exact Or.inr (import_recipe_uri_of_not_lt c ver hv (by simpa using hlt))

/-- Witness for C6: with cached version `1.0.2` the legacy endpoint is
chosen. -/
theorem claim_C6_import_recipe_witness :
    (({ api_host := "h", version := some "1.0.2" } :
        MealieClient).import_recipe_trace "https://example.org/r" false
        "slug-1").post_uri = "api/recipes/create-url" :=
  (claim_C6_import_recipe _ "https://example.org/r" false "slug-1").1.mpr
    ⟨[1, 0, 2], by decide, by decide⟩

/-- A key occurs in an omit-none entry exactly when it is that entry's
alias and the field is set. -/
lemma exists_pair_mem_omitNoneField (key k : String) (o : Option Json) :
    (∃ x, (key, x) ∈ omitNoneField k o) ↔ (key = k ∧ o.isSome = true) := by
  cases o <;> simp [omitNoneField]

/-- C7: `MutateShoppingItem.to_dict(omit_none=True)` yields exactly the
aliased keys of the set fields — stated as the twelve key-membership
equivalences — and the item built from only `list_id`, `note` and
`position` serializes to exactly `shoppingListId`, `note` and
`position`. -/
theorem claim_C7_mutate_shopping_item :
    (∀ (L N : String) (P : Int),
       ({ list_id := some L, note := some N, position := some P } :
          MutateShoppingItem).to_dict_omit_none =
         [("shoppingListId", Json.str L), ("note", Json.str N),
          ("position", Json.int P)]) ∧
    (∀ m : MutateShoppingItem,
       ("id" ∈ m.to_dict_omit_none.map Prod.fst ↔ m.item_id.isSome = true) ∧
       ("shoppingListId" ∈ m.to_dict_omit_none.map Prod.fst ↔
         m.list_id.isSome = true) ∧
       ("note" ∈ m.to_dict_omit_none.map Prod.fst ↔ m.note.isSome = true) ∧
       ("display" ∈ m.to_dict_omit_none.map Prod.fst ↔
         m.display.isSome = true) ∧
       ("checked" ∈ m.to_dict_omit_none.map Prod.fst ↔
         m.checked.isSome = true) ∧
       ("position" ∈ m.to_dict_omit_none.map Prod.fst ↔
         m.position.isSome = true) ∧
       ("isFood" ∈ m.to_dict_omit_none.map Prod.fst ↔
         m.is_food.isSome = true) ∧
       ("disableAmount" ∈ m.to_dict_omit_none.map Prod.fst ↔
         m.disable_amount.isSome = true) ∧
       ("quantity" ∈ m.to_dict_omit_none.map Prod.fst ↔
         m.quantity.isSome = true) ∧
       ("labelId" ∈ m.to_dict_omit_none.map Prod.fst ↔
         m.label_id.isSome = true) ∧
       ("foodId" ∈ m.to_dict_omit_none.map Prod.fst ↔
         m.food_id.isSome = true) ∧
       ("unitId" ∈ m.to_dict_omit_none.map Prod.fst ↔
         m.unit_id.isSome = true)) := by
  constructor
  · intro L N P
    rfl
  · intro m
    refine ⟨?_, ?_, ?_, ?_, ?_, ?_, ?_, ?_, ?_, ?_, ?_, ?_⟩ <;>
      simp [MutateShoppingItem.to_dict_omit_none, exists_pair_mem_omitNoneField]

/-- C8 counterexample: the generic error raised for the 200 `text/plain`
response with body `"Yes"` carries exactly the singleton context
`[("Content-Type", "text/plain")]` — the body text is not attached. -/
theorem claim_C8_counterexample :
    classifyResponse ⟨200, "text/plain", "Yes"⟩ =
      .error (.generic "Unexpected response from Mealie"
        [("Content-Type", "text/plain")]) :=
  rfl

/-- C8 (amended): whenever the generic error is raised because the content
type lacks the JSON marker, it carries the observed content type — and
nothing else, in particular not the body text — as context. -/
theorem claim_C8_generic_context (r : HttpResponse)
    (h400 : r.status ≠ 400) (h401 : r.status ≠ 401)
    (h422 : r.status ≠ 422) (h404 : r.status ≠ 404)
    (hct : strContains r.contentType "application/json" = false) :
    classifyResponse r =
      .error (.generic "Unexpected response from Mealie"
        [("Content-Type", r.contentType)]) := by
  simp [classifyResponse, h400, h401, h422, h404, hct]

/-- Witness for C8 at a concrete HTML error page served with a 200
status. -/
theorem claim_C8_generic_context_witness :
    classifyResponse ⟨200, "text/html", "service down"⟩ =
      .error (.generic "Unexpected response from Mealie"
        [("Content-Type", "text/html")]) :=
  claim_C8_generic_context ⟨200, "text/html", "service down"⟩ (by decide)
    (by decide) (by decide) (by decide) (by decide)

/-- C9: with the household flag never set (still `none`), every scoped
path is built with the `api/groups/` form — identically to detected
non-support — and no error is raised (path construction is total). -/
theorem claim_C9_unset_flag (c : MealieClient) (p item_id : String)
    (h : c.household_support = none) :
    c.versioned_path p = "api/groups/" ++ p ∧
    c.versioned_path p =
      ({ c with household_support := some false } :
        MealieClient).versioned_path p ∧
    c.mealplan_today_path = "api/groups/" ++ "mealplans/today" ∧
    c.mealplans_path = "api/groups/" ++ "mealplans" ∧
    c.shopping_lists_path = "api/groups/" ++ "shopping/lists" ∧
    c.shopping_items_path = "api/groups/" ++ "shopping/items" ∧
    c.statistics_path = "api/groups/" ++ "statistics" ∧
    c.random_mealplan_path = "api/groups/" ++ "mealplans/random" ∧
    c.shopping_item_path item_id =
      "api/groups/" ++ "shopping/items" ++ "/" ++ item_id := by
  refine ⟨?_, ?_, ?_, ?_, ?_, ?_, ?_, ?_, ?_⟩ <;>
    simp [MealieClient.versioned_path, MealieClient.mealplan_today_path,
      MealieClient.mealplans_path, MealieClient.shopping_lists_path,
      MealieClient.shopping_items_path, MealieClient.statistics_path,
      MealieClient.random_mealplan_path, MealieClient.shopping_item_path, h]

/-- Witness for C9: a freshly constructed client (flag unset) builds the
group-scoped mealplans path. -/
theorem claim_C9_unset_flag_witness :
    ({ api_host := "h" } : MealieClient).versioned_path "mealplans" =
      "api/groups/" ++ "mealplans" :=
  (claim_C9_unset_flag { api_host := "h" } "mealplans" "i" rfl).1

/-- C10: the `import_recipe` endpoint choice reads only the cached
`_version` field — it is a function of that field alone — and a client
whose cache was never populated always POSTs to the newer
`api/recipes/create/url`. -/
theorem claim_C10_cached_version_only :
    (∀ c : MealieClient, c.version = none →
       ∀ (url : String) (include_tags : Bool) (slug : String),
         (c.import_recipe_trace url include_tags slug).post_uri =
           "api/recipes/create/url") ∧
    (∀ c c' : MealieClient, c.version = c'.version →
       c.import_recipe_uri = c'.import_recipe_uri) := by
  constructor
  · intro c h url include_tags slug
    show c.import_recipe_uri = _
    exact import_recipe_uri_of_none c (by rw [h]; rfl)
  · intro c c' h
    unfold MealieClient.import_recipe_uri
    rw [h]

/-- Witness for C10: a freshly constructed client (no cached version)
POSTs to the newer endpoint. -/
theorem claim_C10_cached_version_only_witness :
    (({ api_host := "h" } : MealieClient).import_recipe_trace
        "https://example.org/r" false "slug-2").post_uri =
      "api/recipes/create/url" :=
  claim_C10_cached_version_only.1 { api_host := "h" } rfl
    "https://example.org/r" false "slug-2"

end Aiomealie
